import Mathlib

/-!
# A verification development for `elastic/elasticsearch.go`

The Go file is a thin facade over the `olivere/elastic` client: `Conn`, `Find`,
`Insert`, `Delete`, `DeleteIndex`, `NewBulk`, `AddToBulk`, `SendBulk`.

Embedding.

* Go `int` is a mathematical integer wrapped to 64 bits (`wrapInt`); `int64` likewise.
* A Go slice is a `List` (the `nil` slice is `[]`: `len`, `range` and `append` do not
  tell them apart); a Go pointer that may be `nil` is an `Option`; a Go `error` is an
  `Option E` (`none` is the `nil` error).
* A run-time panic (nil pointer dereference) is `Outcome.panic`.
* The wrapped client library and `encoding/json` are not part of the file. They are a
  parameter, `Backend`: one state-passing function per library call the facade makes,
  each free to return a value, an error, or to panic. Every theorem quantifies over all
  backends. Pointer results that the library returns together with a `nil` error
  (`*Client`, `*SearchResult`, `*CreateIndexResult`) are taken to be non-nil.
* `World` carries the backend state, the list of library calls made so far (oldest
  first) and the lines printed on standard output.
-/

namespace Elastic

/-! ## Machine integers -/

/-- Width of the Go `int` type on 64-bit targets. -/
def intBits : Nat := 64

/-- Largest Go `int`. -/
def maxInt : Int := 2 ^ (intBits - 1) - 1

/-- Smallest Go `int`. -/
def minInt : Int := -(2 ^ (intBits - 1))

/-- Two-complement wrap-around of an integer into the range of Go `int`. -/
def wrapInt (z : Int) : Int :=
  (z + 2 ^ (intBits - 1)) % 2 ^ intBits - 2 ^ (intBits - 1)

/-- Go `a - b` on `int`. -/
def subInt (a b : Int) : Int := wrapInt (a - b)

/-- Go `a * b` on `int`. -/
def mulInt (a b : Int) : Int := wrapInt (a * b)

/-- The constant `pageLimit = 20`. -/
def pageLimit : Int := 20

/-! ## Data of the wrapped client library, as far as the facade touches it -/

/-- Result of running Go code: a run-time panic or a normal return. -/
inductive Outcome (α : Type) where
  | panic : Outcome α
  | ret (a : α) : Outcome α
  deriving DecidableEq, Repr

/-- Options given to `elastic.NewClient`: `SetURL`, `SetSniff`,
`SetHealthcheckInterval` (in seconds) and `SetMaxRetries`. -/
structure ClientOptions where
  URL : String
  Sniff : Bool
  HealthcheckInterval : Nat
  MaxRetries : Nat
  deriving DecidableEq, Repr

/-- The search service as configured by `Find`: `Index`, `Type`, `Query`, `From`,
`Size`, `Pretty`. -/
structure SearchRequest (Q : Type) where
  Index : String
  Typ : String
  Query : Q
  From : Int
  Size : Int
  Pretty : Bool
  deriving DecidableEq, Repr

/-- The index service as configured by `Insert`: `Index`, `Type`, `BodyJson`. -/
structure IndexRequest (D : Type) where
  Index : String
  Typ : String
  BodyJson : D
  deriving DecidableEq, Repr

/-- The delete-by-query service as configured by `Delete`. -/
structure DeleteByQueryRequest (Q : Type) where
  Index : String
  Typ : String
  Query : Q
  deriving DecidableEq, Repr

/-- Value of `elastic.NewBulkIndexRequest().Index(i).Type(t).Doc(d)`. -/
structure BulkIndexRequest (D : Type) where
  Index : String
  Typ : String
  Doc : D
  deriving DecidableEq, Repr

/-- One hit of a search response; `Source` is a pointer to the raw JSON payload. -/
structure SearchHit (R : Type) where
  Source : Option R
  deriving DecidableEq, Repr

/-- The hits section of a search response. -/
structure SearchHits (R : Type) where
  TotalHits : Int
  Hits : List (SearchHit R)
  deriving DecidableEq, Repr

/-- The search response; `Hits` is a pointer and may be `nil`. -/
structure SearchResult (R : Type) where
  TookInMillis : Int
  Hits : Option (SearchHits R)
  deriving DecidableEq, Repr

/-- Response of index creation. -/
structure CreateIndexResult where
  Acknowledged : Bool
  deriving DecidableEq, Repr

/-- A call made on the wrapped client library. -/
inductive Request (Q D : Type) where
  | newClient (opts : ClientOptions)
  | indexExists (index : String)
  | createIndex (index : String)
  | search (req : SearchRequest Q)
  | index (req : IndexRequest D)
  | deleteByQuery (req : DeleteByQueryRequest Q)
  | flush (index : String)
  | deleteIndex (index : String)
  | bulk (reqs : List (BulkIndexRequest D))
  deriving DecidableEq, Repr

/-- The wrapped client library and `json.Unmarshal`, as arbitrary functions.
`σ` is the state of the outside world, `κ` the client object, `Q` queries, `D`
documents (`interface{}`), `R` raw JSON messages, `E` error values. The second
argument of a service call is the receiver `es.client`, which may be `nil`. -/
structure Backend (σ κ Q D R E : Type) where
  NewClient : σ → ClientOptions → σ × Outcome (Except E κ)
  IndexExists : σ → Option κ → String → σ × Outcome (Except E Bool)
  CreateIndex : σ → Option κ → String → σ × Outcome (Except E CreateIndexResult)
  Search : σ → Option κ → SearchRequest Q → σ × Outcome (Except E (SearchResult R))
  Index : σ → Option κ → IndexRequest D → σ × Outcome (Option E)
  DeleteByQuery : σ → Option κ → DeleteByQueryRequest Q → σ × Outcome (Option E)
  Flush : σ → Option κ → String → σ × Outcome (Option E)
  DeleteIndex : σ → Option κ → String → σ × Outcome (Option E)
  Bulk : σ → Option κ → List (BulkIndexRequest D) → σ × Outcome (Option E)
  Unmarshal : R → Except E D

/-- State threaded through the facade: backend state, library calls made so far
(oldest first), lines printed. -/
structure World (σ Q D : Type) where
  engine : σ
  log : List (Request Q D)
  out : List String
  deriving DecidableEq, Repr

/-- Record a library call and the backend state it leaves. -/
def World.call {σ Q D : Type} (w : World σ Q D) (r : Request Q D) (s : σ) : World σ Q D :=
  { engine := s, log := w.log ++ [r], out := w.out }

/-- Record a line printed on standard output. -/
def World.print {σ Q D : Type} (w : World σ Q D) (line : String) : World σ Q D :=
  { engine := w.engine, log := w.log, out := w.out ++ [line] }

/-! ## The facade -/

/-- The struct `ElasticSearch`. -/
structure ElasticSearch (κ : Type) where
  uri : String
  index : String
  client : Option κ
  deriving DecidableEq, Repr

/-- The offset `skipCount` computed at lines 63-69 of the source from the variadic
`params`. -/
def skipCount (params : List Int) : Int :=
  match params with
  | [] => 0
  | p :: _ => if p > 1 then mulInt (subInt p 1) pageLimit else 0

/-- The search service built by `Find` (lines 71-76). -/
def findRequest {κ Q : Type} (es : ElasticSearch κ) (query : Q) (table : String)
    (params : List Int) : SearchRequest Q :=
  { Index := es.index, Typ := table, Query := query, From := skipCount params,
    Size := pageLimit, Pretty := true }

/-- The loop at lines 86-96: `objects` is the slice accumulated so far. `none` is the
early `return nil, 0, err`; a hit without a source payload makes `*hit.Source` panic. -/
def findLoop {D R E : Type} (unmarshal : R → Except E D) :
    List (SearchHit R) → List D → Outcome (Except E (List D))
  | [], objects => .ret (.ok objects)
  | hit :: rest, objects =>
    match hit.Source with
    | none => .panic
    | some raw =>
      match unmarshal raw with
      | .error err => .ret (.error err)
      | .ok model => findLoop unmarshal rest (objects ++ [model])

/-- The three values returned by `Find`. -/
structure FindResult (D E : Type) where
  objects : List D
  total : Int
  err : Option E
  deriving DecidableEq, Repr

/-- The line printed by `fmt.Printf("Query took %d milliseconds\n", took)`. -/
def tookLine (took : Int) : String :=
  "Query took " ++ toString took ++ " milliseconds\n"

/-- `(es *ElasticSearch) Find(query, table, params...)`. -/
def Find {σ κ Q D R E : Type} (be : Backend σ κ Q D R E) (es : ElasticSearch κ)
    (w : World σ Q D) (query : Q) (table : String) (params : List Int) :
    World σ Q D × Outcome (FindResult D E) :=
  let req := findRequest es query table params
  match be.Search w.engine es.client req with
  | (s1, .panic) => (w.call (.search req) s1, .panic)
  | (s1, .ret (.error err)) =>
    (w.call (.search req) s1, .ret { objects := [], total := 0, err := some err })
  | (s1, .ret (.ok searchResult)) =>
    let w1 := (w.call (.search req) s1).print (tookLine searchResult.TookInMillis)
    let looped : Outcome (Except E (List D)) :=
      match searchResult.Hits with
      | some hits => findLoop be.Unmarshal hits.Hits []
      | none => .ret (.ok [])
    match looped with
    | .panic => (w1, .panic)
    | .ret (.error err) => (w1, .ret { objects := [], total := 0, err := some err })
    | .ret (.ok objects) =>
      match searchResult.Hits with
      | none => (w1, .panic)
      | some hits => (w1, .ret { objects := objects, total := hits.TotalHits, err := none })

/-- `(es *ElasticSearch) DeleteIndex()`; the result of the call is discarded. -/
def DeleteIndex {σ κ Q D R E : Type} (be : Backend σ κ Q D R E) (es : ElasticSearch κ)
    (w : World σ Q D) : World σ Q D × Outcome Unit :=
  match be.DeleteIndex w.engine es.client es.index with
  | (s1, .panic) => (w.call (.deleteIndex es.index) s1, .panic)
  | (s1, .ret _) => (w.call (.deleteIndex es.index) s1, .ret ())

/-- The index service built by `Insert` (lines 107-110). -/
def insertRequest {κ D : Type} (es : ElasticSearch κ) (table : String) (model : D) :
    IndexRequest D :=
  { Index := es.index, Typ := table, BodyJson := model }

/-- The delete-by-query service built by `Delete` (line 128). -/
def deleteRequest {κ Q : Type} (es : ElasticSearch κ) (table : String) (query : Q) :
    DeleteByQueryRequest Q :=
  { Index := es.index, Typ := table, Query := query }

/-- `(es *ElasticSearch) Insert(table, model) error`. -/
def Insert {σ κ Q D R E : Type} (be : Backend σ κ Q D R E) (es : ElasticSearch κ)
    (w : World σ Q D) (table : String) (model : D) : World σ Q D × Outcome (Option E) :=
  let req := insertRequest es table model
  match be.Index w.engine es.client req with
  | (s1, .panic) => (w.call (.index req) s1, .panic)
  | (s1, .ret (some err)) => (w.call (.index req) s1, .ret (some err))
  | (s1, .ret none) =>
    let w1 := w.call (.index req) s1
    match be.Flush w1.engine es.client es.index with
    | (s2, .panic) => (w1.call (.flush es.index) s2, .panic)
    | (s2, .ret (some err)) => (w1.call (.flush es.index) s2, .ret (some err))
    | (s2, .ret none) => (w1.call (.flush es.index) s2, .ret none)

/-- `(es *ElasticSearch) Delete(table, query) error`. -/
def Delete {σ κ Q D R E : Type} (be : Backend σ κ Q D R E) (es : ElasticSearch κ)
    (w : World σ Q D) (table : String) (query : Q) : World σ Q D × Outcome (Option E) :=
  let req := deleteRequest es table query
  match be.DeleteByQuery w.engine es.client req with
  | (s1, .panic) => (w.call (.deleteByQuery req) s1, .panic)
  | (s1, .ret (some err)) => (w.call (.deleteByQuery req) s1, .ret (some err))
  | (s1, .ret none) =>
    let w1 := w.call (.deleteByQuery req) s1
    match be.Flush w1.engine es.client es.index with
    | (s2, .panic) => (w1.call (.flush es.index) s2, .panic)
    | (s2, .ret (some err)) => (w1.call (.flush es.index) s2, .ret (some err))
    | (s2, .ret none) => (w1.call (.flush es.index) s2, .ret none)

/-- Modelled from the spec: the bulk batch of the wrapped library (`*BulkService`), whose
source is not part of the repository. It is "a mutable collection of pending write
operations", bound to the connection of the handle. -/
structure BulkService (κ D : Type) where
  client : Option κ
  requests : List (BulkIndexRequest D)
  deriving DecidableEq, Repr

/-- Modelled from the spec: the library method `(*BulkService).Add`, which "appends" the
operation to the batch; "pure in-memory accumulation; no I/O". -/
def BulkService.Add {κ D : Type} (bulk : BulkService κ D) (r : BulkIndexRequest D) :
    BulkService κ D :=
  { client := bulk.client, requests := bulk.requests ++ [r] }

/-- Modelled from the spec: the library method `(*Client).Bulk`, which "allocates an
empty pending-operation batch bound to the handle's connection". -/
def clientBulk {κ : Type} (D : Type) (client : Option κ) : BulkService κ D :=
  { client := client, requests := [] }

/-- `(es *ElasticSearch) NewBulk()`: `es.client.Bulk()`. -/
def NewBulk {κ : Type} (D : Type) (es : ElasticSearch κ) : BulkService κ D :=
  clientBulk D es.client

/-- `(es *ElasticSearch) AddToBulk(bulk, table, model)`; the mutated service is
returned. -/
def AddToBulk {κ D : Type} (es : ElasticSearch κ) (bulk : BulkService κ D)
    (table : String) (model : D) : BulkService κ D :=
  bulk.Add { Index := es.index, Typ := table, Doc := model }

/-- `(es *ElasticSearch) SendBulk(bulk)`: `bulk.Do()`, its result discarded. -/
def SendBulk {σ κ Q D R E : Type} (be : Backend σ κ Q D R E) (_es : ElasticSearch κ)
    (w : World σ Q D) (bulk : BulkService κ D) : World σ Q D × Outcome Unit :=
  match be.Bulk w.engine bulk.client bulk.requests with
  | (s1, .panic) => (w.call (.bulk bulk.requests) s1, .panic)
  | (s1, .ret _) => (w.call (.bulk bulk.requests) s1, .ret ())

/-- `AddToBulk` called once per `(table, model)` pair, in list order. -/
def addAllToBulk {κ D : Type} (es : ElasticSearch κ) (bulk : BulkService κ D)
    (calls : List (String × D)) : BulkService κ D :=
  calls.foldl (fun b c => AddToBulk es b c.1 c.2) bulk

/-! ## A concrete backend for evaluating the facade -/

/-- A small backend over concrete types: the state counts the library calls, raw
payloads and documents are numbers, `Unmarshal` decodes an even payload `2 * d` to the
document `d` and rejects an odd one. `found`, `created`, `resp`, `written` and
`flushed` are the answers of the existence check, index creation, search, write
requests and flush; a search response is cut to the requested `Size`. -/
def sampleBackend (found : Except String Bool) (created : Except String CreateIndexResult)
    (resp : Except String (SearchResult Nat)) (written flushed : Option String) :
    Backend Nat Nat String Nat Nat String where
  NewClient := fun s opts =>
    (s + 1, .ret (if opts.URL = "" then .error "no URL" else .ok 7))
  IndexExists := fun s c _ => (s + 1, if c.isSome then .ret found else .panic)
  CreateIndex := fun s c _ => (s + 1, if c.isSome then .ret created else .panic)
  Search := fun s c req =>
    (s + 1,
      if c.isSome then
        if req.Size < 0 then .ret (.error "negative size")
        else .ret (resp.map fun r =>
          { r with Hits := r.Hits.map fun h => { h with Hits := h.Hits.take req.Size.toNat } })
      else .panic)
  Index := fun s c _ => (s + 1, if c.isSome then .ret written else .panic)
  DeleteByQuery := fun s c _ => (s + 1, if c.isSome then .ret written else .panic)
  Flush := fun s c _ => (s + 1, if c.isSome then .ret flushed else .panic)
  DeleteIndex := fun s c _ => (s + 1, if c.isSome then .ret none else .panic)
  Bulk := fun s c _ => (s + 1, if c.isSome then .ret none else .panic)
  Unmarshal := fun raw => if raw % 2 = 0 then .ok (raw / 2) else .error "odd payload"

/-- A backend that only answers searches, with `resp`. -/
def searchBackend (resp : Except String (SearchResult Nat)) :
    Backend Nat Nat String Nat Nat String :=
  sampleBackend (.ok true) (.ok { Acknowledged := true }) resp none none

/-- A connected handle on the index `"books"`. -/
def sampleHandle : ElasticSearch Nat :=
  { uri := "http://localhost:9200", index := "books", client := some 7 }

/-- The world before any call. -/
def sampleWorld : World Nat String Nat :=
  { engine := 0, log := [], out := [] }

/-- A hit whose source payload is `raw`. -/
def hitOf (raw : Nat) : SearchHit Nat := { Source := some raw }

/-- A hits section: three decodable hits out of `57` matches. -/
def samplePage57 : SearchHits Nat :=
  { TotalHits := 57, Hits := [hitOf 10, hitOf 4, hitOf 6] }

/-- A search response carrying `samplePage57`. -/
def samplePage : SearchResult Nat :=
  { TookInMillis := 3, Hits := some samplePage57 }

/-- A search response whose second hit does not decode and whose third hit has no
source payload. -/
def brokenPage : SearchResult Nat :=
  { TookInMillis := 3,
    Hits := some { TotalHits := 3, Hits := [hitOf 10, hitOf 5, { Source := none }] } }

/-- A search response reporting no match. -/
def emptyPage : SearchResult Nat :=
  { TookInMillis := 1, Hits := some { TotalHits := 0, Hits := [] } }

/-- A search response without hits section (`Hits == nil`). -/
def noHitsSection : SearchResult Nat :=
  { TookInMillis := 1, Hits := none }

/-- A search response with one hit that has no source payload (`Source == nil`). -/
def noSourcePage : SearchResult Nat :=
  { TookInMillis := 1, Hits := some { TotalHits := 1, Hits := [{ Source := none }] } }

/-- The engine contract behind the page bound: a search response never carries more
hits than the request's `Size`. -/
def Backend.HonoursSize {σ κ Q D R E : Type} (be : Backend σ κ Q D R E) : Prop :=
  ∀ (s : σ) (c : Option κ) (req : SearchRequest Q) (s1 : σ) (res : SearchResult R)
    (hits : SearchHits R),
    be.Search s c req = (s1, .ret (.ok res)) → res.Hits = some hits →
      (hits.Hits.length : Int) ≤ req.Size

/-! ## Pagination offset -/

/-- Wrapping leaves a value of the `int` range unchanged. -/
theorem wrapInt_of_range (z : Int) (hlo : minInt ≤ z) (hhi : z ≤ maxInt) : wrapInt z = z := by
  unfold wrapInt
  unfold minInt at hlo
  unfold maxInt at hhi
  simp only [intBits] at *
  norm_num at hlo hhi ⊢
  rw [Int.emod_eq_of_lt (by omega) (by omega)]
  omega

/-- Claim C1 as written fails: for the page number `2 ^ 62`, a valid Go `int` greater
than `1`, the product `(p - 1) * 20` leaves the `int` range and the offset handed to
the search is `-20`, not `(p - 1) * 20`. -/
theorem skipCount_page_overflow :
    (1 : Int) < 4611686018427387904 ∧ (4611686018427387904 : Int) ≤ maxInt ∧
      skipCount [4611686018427387904] = -20 ∧
      skipCount [4611686018427387904] ≠ (4611686018427387904 - 1) * 20 := by
  decide

/-- The wrapped value lies in the `int` range and differs from the exact value by a
multiple of `2 ^ 64`. -/
theorem wrapInt_spec (z : Int) :
    minInt ≤ wrapInt z ∧ wrapInt z ≤ maxInt ∧ (wrapInt z - z) % 2 ^ 64 = 0 := by
  unfold wrapInt minInt maxInt
  simp only [intBits]
  norm_num
  omega

/-- Claim C1, amended: when the page number is omitted or is at most `1` the offset is
`0`; when the page number `p` is greater than `1` and `(p - 1) * 20` still fits the Go
`int` range, the offset is exactly `(p - 1) * 20`; for every page number `p` greater
than `1` (any Go `int`) the offset is `(p - 1) * 20` wrapped around modulo `2 ^ 64`:
the value of the `int` range that differs from `(p - 1) * 20` by a multiple of
`2 ^ 64`. -/
theorem skipCount_page (params : List Int) :
    ((params.head? = none ∨ ∃ p, params.head? = some p ∧ p ≤ 1) → skipCount params = 0) ∧
      (∀ p, params.head? = some p → 1 < p → (p - 1) * 20 ≤ maxInt →
        skipCount params = (p - 1) * 20) ∧
      (∀ p, params.head? = some p → 1 < p → p ≤ maxInt →
        skipCount params = wrapInt ((p - 1) * 20) ∧
          minInt ≤ skipCount params ∧ skipCount params ≤ maxInt ∧
          (skipCount params - (p - 1) * 20) % 2 ^ 64 = 0) := by
  have hmax : maxInt = 9223372036854775807 := by decide
  have hmin : minInt = -9223372036854775808 := by decide
  have hwrap : ∀ a : Int, 1 < a → a ≤ maxInt →
      skipCount (a :: params.tail) = wrapInt ((a - 1) * 20) := by
    intro a ha hle
    have h1 : subInt a 1 = a - 1 := by
      unfold subInt
      apply wrapInt_of_range <;> omega
    simp [skipCount, ha, h1, mulInt, pageLimit]
  refine ⟨?_, ?_, ?_⟩
  · rintro (h | ⟨p, h, hp⟩)
    · cases params with
      | nil => rfl
      | cons a l => simp at h
    · cases params with
      | nil => simp at h
      | cons a l =>
        simp only [List.head?_cons, Option.some.injEq] at h
        subst h
        simp [skipCount, not_lt.mpr hp]
  · intro p h hp hfit
    cases params with
    | nil => simp at h
    | cons a l =>
      simp only [List.head?_cons, Option.some.injEq] at h
      subst h
      have := hwrap a hp (by omega)
      simp only [List.tail_cons] at this
      rw [this]
      apply wrapInt_of_range <;> omega
  · intro p h hp hle
    cases params with
    | nil => simp at h
    | cons a l =>
      simp only [List.head?_cons, Option.some.injEq] at h
      subst h
      have := hwrap a hp hle
      simp only [List.tail_cons] at this
      rw [this]
      exact ⟨rfl, wrapInt_spec _⟩

/-- The amended offset rule at concrete calls: no page number, page `0`, page `-4`, page
`1`, page `3`, the largest page whose offset fits, and the first page whose offset
wraps around. -/
theorem skipCount_page_witness :
    skipCount [] = 0 ∧ skipCount [0, 9] = 0 ∧ skipCount [-4] = 0 ∧ skipCount [1] = 0 ∧
      skipCount [3] = (3 - 1) * 20 ∧
      skipCount [461168601842738791] = (461168601842738791 - 1) * 20 ∧
      (skipCount [461168601842738792] = wrapInt ((461168601842738792 - 1) * 20) ∧
        minInt ≤ skipCount [461168601842738792] ∧ skipCount [461168601842738792] ≤ maxInt ∧
        (skipCount [461168601842738792] - (461168601842738792 - 1) * 20) % 2 ^ 64 = 0) :=
  ⟨(skipCount_page []).1 (Or.inl rfl),
   (skipCount_page [0, 9]).1 (Or.inr ⟨0, rfl, by decide⟩),
   (skipCount_page [-4]).1 (Or.inr ⟨-4, rfl, by decide⟩),
   (skipCount_page [1]).1 (Or.inr ⟨1, rfl, by decide⟩),
   (skipCount_page [3]).2.1 3 rfl (by decide) (by decide),
   (skipCount_page [461168601842738791]).2.1 461168601842738791 rfl (by decide) (by decide),
   (skipCount_page [461168601842738792]).2.2 461168601842738792 rfl (by decide)
     (by decide)⟩

/-! ## `Find` -/

/-- When every hit has a decodable source, the loop returns the accumulator extended by
the decoded documents, position by position. -/
theorem findLoop_all_decode {D R E : Type} (unmarshal : R → Except E D)
    (hits : List (SearchHit R)) (acc : List D)
    (hdec : ∀ hit ∈ hits, ∃ raw doc, hit.Source = some raw ∧ unmarshal raw = .ok doc) :
    ∃ objects, findLoop unmarshal hits acc = .ret (.ok (acc ++ objects)) ∧
      objects.length = hits.length ∧
      ∀ (i : Nat) (hit : SearchHit R), hits[i]? = some hit →
        ∃ raw doc, hit.Source = some raw ∧ unmarshal raw = .ok doc ∧ objects[i]? = some doc := by
  induction hits generalizing acc with
  | nil => exact ⟨[], by simp [findLoop], rfl, by simp⟩
  | cons hit rest ih =>
    obtain ⟨raw, doc, hsrc, hun⟩ := hdec hit (List.mem_cons_self _ _)
    obtain ⟨objects, hloop, hlen, hidx⟩ :=
      ih (acc ++ [doc]) (fun h hh => hdec h (List.mem_cons_of_mem _ hh))
    refine ⟨doc :: objects, ?_, by simp [hlen], ?_⟩
    · simp [findLoop, hsrc, hun, hloop]
    · intro i h hi
      cases i with
      | zero =>
        simp only [List.getElem?_cons_zero, Option.some.injEq] at hi
        subst hi
        exact ⟨raw, doc, hsrc, hun, by simp⟩
      | succ j =>
        simp only [List.getElem?_cons_succ] at hi ⊢
        exact hidx j h hi

/-- A loop that runs to its end has appended one document per hit. -/
theorem findLoop_length {D R E : Type} (unmarshal : R → Except E D)
    (hits : List (SearchHit R)) (acc objects : List D)
    (h : findLoop unmarshal hits acc = .ret (.ok objects)) :
    objects.length = acc.length + hits.length := by
  induction hits generalizing acc with
  | nil =>
    simp only [findLoop, Outcome.ret.injEq, Except.ok.injEq] at h
    simp [h]
  | cons hit rest ih =>
    unfold findLoop at h
    split at h
    · cases h
    · split at h
      · cases h
      · have := ih _ h
        simp at this ⊢
        omega

/-- The loop stops at the first undecodable payload with its error, whatever was
accumulated and whatever follows. -/
theorem findLoop_first_failure {D R E : Type} (unmarshal : R → Except E D)
    (pre post : List (SearchHit R)) (bad : SearchHit R) (raw : R) (err : E) (acc : List D)
    (hpre : ∀ hit ∈ pre, ∃ r doc, hit.Source = some r ∧ unmarshal r = .ok doc)
    (hsrc : bad.Source = some raw) (hbad : unmarshal raw = .error err) :
    findLoop unmarshal (pre ++ bad :: post) acc = .ret (.error err) := by
  induction pre generalizing acc with
  | nil => simp [findLoop, hsrc, hbad]
  | cons hit rest ih =>
    obtain ⟨r, doc, hs, hu⟩ := hpre hit (List.mem_cons_self _ _)
    simp only [List.cons_append, findLoop, hs, hu]
    exact ih _ (fun h hh => hpre h (List.mem_cons_of_mem _ hh))

/-- Claim C2: when the search succeeds with a hits section and every hit has a source
payload that decodes, `Find` returns no error, a document list as long as the hit list
whose `i`-th element is the decoding of the `i`-th hit, and the total `TotalHits` of
the response. -/
theorem Find_returns_decoded_hits {σ κ Q D R E : Type} (be : Backend σ κ Q D R E)
    (es : ElasticSearch κ) (w : World σ Q D) (query : Q) (table : String)
    (params : List Int) (s1 : σ) (res : SearchResult R) (hits : SearchHits R)
    (hsearch : be.Search w.engine es.client (findRequest es query table params)
      = (s1, .ret (.ok res)))
    (hhits : res.Hits = some hits)
    (hdec : ∀ hit ∈ hits.Hits, ∃ raw doc, hit.Source = some raw ∧ be.Unmarshal raw = .ok doc) :
    ∃ objects, (Find be es w query table params).2
        = .ret { objects := objects, total := hits.TotalHits, err := none } ∧
      objects.length = hits.Hits.length ∧
      ∀ (i : Nat) (hit : SearchHit R), hits.Hits[i]? = some hit →
        ∃ raw doc, hit.Source = some raw ∧ be.Unmarshal raw = .ok doc ∧
          objects[i]? = some doc := by
  obtain ⟨objects, hloop, hlen, hidx⟩ := findLoop_all_decode be.Unmarshal hits.Hits [] hdec
  refine ⟨objects, ?_, hlen, hidx⟩
  simp only [List.nil_append] at hloop
  simp [Find, hsearch, hhits, hloop]

/-- Result shaping at a concrete response: three hits with payloads `10, 4, 6`
and `TotalHits = 57` give the documents `5, 2, 3` in that order and the total `57`. -/
theorem Find_returns_decoded_hits_witness :
    ∃ objects,
      (Find (searchBackend (.ok samplePage)) sampleHandle sampleWorld "title:lean" "book" [2]).2
        = .ret { objects := objects, total := 57, err := none } ∧
      objects.length = 3 ∧
      ∀ (i : Nat) (hit : SearchHit Nat), [hitOf 10, hitOf 4, hitOf 6][i]? = some hit →
        ∃ raw doc, hit.Source = some raw ∧
          (searchBackend (.ok samplePage)).Unmarshal raw = .ok doc ∧
          objects[i]? = some doc :=
  Find_returns_decoded_hits (searchBackend (.ok samplePage))
    sampleHandle sampleWorld "title:lean" "book" [2] 1 samplePage samplePage57 rfl rfl
    (by
      intro hit hmem
      simp only [samplePage57, List.mem_cons, List.mem_singleton, List.not_mem_nil,
        or_false] at hmem
      rcases hmem with h | h | h
      · exact ⟨10, 5, by rw [h]; rfl, rfl⟩
      · exact ⟨4, 2, by rw [h]; rfl, rfl⟩
      · exact ⟨6, 3, by rw [h]; rfl, rfl⟩)

/-- Claim C3: if the search request fails, `Find` returns that error with a nil
document list and total `0`; if the search succeeds and some hit has a payload that
does not decode, all hits before it having decoded, `Find` returns the decoding error
of that first failing hit with a nil document list and total `0`, whatever the earlier
hits decoded to and whatever follows. -/
theorem Find_aborts_on_first_failure {σ κ Q D R E : Type} (be : Backend σ κ Q D R E)
    (es : ElasticSearch κ) (w : World σ Q D) (query : Q) (table : String)
    (params : List Int) :
    (∀ (s1 : σ) (err : E),
      be.Search w.engine es.client (findRequest es query table params)
        = (s1, .ret (.error err)) →
      (Find be es w query table params).2
        = .ret { objects := [], total := 0, err := some err }) ∧
    (∀ (s1 : σ) (res : SearchResult R) (hits : SearchHits R) (pre post : List (SearchHit R))
        (bad : SearchHit R) (raw : R) (err : E),
      be.Search w.engine es.client (findRequest es query table params)
        = (s1, .ret (.ok res)) →
      res.Hits = some hits →
      hits.Hits = pre ++ bad :: post →
      (∀ hit ∈ pre, ∃ r doc, hit.Source = some r ∧ be.Unmarshal r = .ok doc) →
      bad.Source = some raw →
      be.Unmarshal raw = .error err →
      (Find be es w query table params).2
        = .ret { objects := [], total := 0, err := some err }) := by
  constructor
  · intro s1 err hsearch
    simp [Find, hsearch]
  · intro s1 res hits pre post bad raw err hsearch hhits hsplit hpre hsrc hbad
    have hloop := findLoop_first_failure be.Unmarshal pre post bad raw err [] hpre hsrc hbad
    rw [← hsplit] at hloop
    simp [Find, hsearch, hhits, hloop]

/-- The abort rule at concrete responses: a failed search, and a response whose
first hit decodes and whose second does not. -/
theorem Find_aborts_on_first_failure_witness :
    (Find (searchBackend (.error "index_not_found")) sampleHandle sampleWorld
        "title:lean" "book" []).2
      = .ret { objects := [], total := 0, err := some "index_not_found" } ∧
    (Find (searchBackend (.ok brokenPage)) sampleHandle sampleWorld "title:lean" "book" []).2
      = .ret { objects := [], total := 0, err := some "odd payload" } :=
  ⟨(Find_aborts_on_first_failure (searchBackend (.error "index_not_found")) sampleHandle
      sampleWorld "title:lean" "book" []).1 1 "index_not_found" rfl,
   (Find_aborts_on_first_failure (searchBackend (.ok brokenPage)) sampleHandle sampleWorld
      "title:lean" "book" []).2 1 brokenPage
      { TotalHits := 3, Hits := [hitOf 10, hitOf 5, { Source := none }] }
      [hitOf 10] [{ Source := none }] (hitOf 5) 5 "odd payload" rfl rfl rfl
      (by
        intro hit hmem
        simp only [List.mem_singleton] at hmem
        exact ⟨10, 5, by rw [hmem]; rfl, rfl⟩)
      rfl rfl⟩

/-- The world after `Find`: one search added to the log, and the backend state left by
one application of `Search` to the state before. -/
theorem Find_world {σ κ Q D R E : Type} (be : Backend σ κ Q D R E)
    (es : ElasticSearch κ) (w : World σ Q D) (query : Q) (table : String)
    (params : List Int) :
    (Find be es w query table params).1.log
        = w.log ++ [.search (findRequest es query table params)] ∧
      (Find be es w query table params).1.engine
        = (be.Search w.engine es.client (findRequest es query table params)).1 := by
  rcases hs : be.Search w.engine es.client (findRequest es query table params) with ⟨s1, r⟩
  rcases r with _ | (err | res)
  · simp [Find, hs, World.call]
  · simp [Find, hs, World.call]
  · cases hh : res.Hits with
    | none => simp [Find, hs, hh, World.call, World.print]
    | some hits =>
      rcases hl : findLoop be.Unmarshal hits.Hits [] with _ | (err | objs) <;>
        simp [Find, hs, hh, hl, World.call, World.print]

/-- Claim C7: every call of `Find` executes exactly one search on the wrapped client:
the request is on the index of the handle and the given document type, carries the
query of the caller as it is, has `From` the computed offset and `Size` `20`; it is the
only call `Find` adds to the log, and the backend state after `Find` is the state left
by applying the backend search once, to the state before, with the client of the handle
and exactly that request. This holds for every answer of the backend, so no second
request follows whatever the response. -/
theorem Find_issues_one_search {σ κ Q D R E : Type} (be : Backend σ κ Q D R E)
    (es : ElasticSearch κ) (w : World σ Q D) (query : Q) (table : String)
    (params : List Int) :
    (Find be es w query table params).1.log
        = w.log ++ [Request.search
            { Index := es.index, Typ := table, Query := query, From := skipCount params,
              Size := 20, Pretty := true }] ∧
      (Find be es w query table params).1.engine
        = (be.Search w.engine es.client
            { Index := es.index, Typ := table, Query := query, From := skipCount params,
              Size := 20, Pretty := true }).1 :=
  Find_world be es w query table params

/-- Claim C9: when the search succeeds and its hits section reports no match (no hit,
`TotalHits = 0`), `Find` returns no error, an empty document list and total `0`. -/
theorem Find_zero_match {σ κ Q D R E : Type} (be : Backend σ κ Q D R E)
    (es : ElasticSearch κ) (w : World σ Q D) (query : Q) (table : String)
    (params : List Int) (s1 : σ) (res : SearchResult R) (hits : SearchHits R)
    (hsearch : be.Search w.engine es.client (findRequest es query table params)
      = (s1, .ret (.ok res)))
    (hhits : res.Hits = some hits) (hnone : hits.Hits = []) (htotal : hits.TotalHits = 0) :
    (Find be es w query table params).2
      = .ret { objects := [], total := 0, err := none } := by
  simp [Find, hsearch, hhits, hnone, htotal, findLoop]

/-- The zero-match rule at a concrete response without hits. -/
theorem Find_zero_match_witness :
    (Find (searchBackend (.ok emptyPage)) sampleHandle sampleWorld "title:none" "book" [4]).2
      = .ret { objects := [], total := 0, err := none } :=
  Find_zero_match (searchBackend (.ok emptyPage)) sampleHandle sampleWorld "title:none"
    "book" [4] 1 emptyPage { TotalHits := 0, Hits := [] } rfl rfl rfl rfl

/-- Claim C10 fails on the code: for a search response returned without error whose
`Hits` is `nil`, `Find` skips the loop (guard at line 84) and then panics on
`searchResult.Hits.TotalHits` (line 99); for a hit whose `Source` is `nil` it panics on
`*hit.Source` (line 89). Neither call returns a triple. -/
theorem Find_panics_on_nil :
    (Find (searchBackend (.ok noHitsSection)) sampleHandle sampleWorld "title:lean" "book"
        []).2 = .panic ∧
    (Find (searchBackend (.ok noSourcePage)) sampleHandle sampleWorld "title:lean" "book"
        []).2 = .panic := by
  decide

/-- A `Find` that returns without error ran the search, got a hits section, decoded
every hit and reports the total of that section. -/
theorem Find_success_inv {σ κ Q D R E : Type} (be : Backend σ κ Q D R E)
    (es : ElasticSearch κ) (w : World σ Q D) (query : Q) (table : String)
    (params : List Int) (objects : List D) (total : Int)
    (hfind : (Find be es w query table params).2
      = .ret { objects := objects, total := total, err := none }) :
    ∃ s1 res hits,
      be.Search w.engine es.client (findRequest es query table params)
        = (s1, .ret (.ok res)) ∧
      res.Hits = some hits ∧ total = hits.TotalHits ∧ objects.length = hits.Hits.length := by
  rcases hs : be.Search w.engine es.client (findRequest es query table params) with ⟨s1, r⟩
  rcases r with _ | (err | res)
  · simp [Find, hs] at hfind
  · simp [Find, hs] at hfind
  · cases hh : res.Hits with
    | none => simp [Find, hs, hh] at hfind
    | some hits =>
      rcases hl : findLoop be.Unmarshal hits.Hits [] with _ | (err | objs)
      · simp [Find, hs, hh, hl] at hfind
      · simp [Find, hs, hh, hl] at hfind
      · simp only [Find, hs, hh, hl, Outcome.ret.injEq, FindResult.mk.injEq, and_true] at hfind
        have hlen := findLoop_length be.Unmarshal hits.Hits [] objs hl
        refine ⟨s1, res, hits, rfl, hh, hfind.2.symm, ?_⟩
        rw [← hfind.1, hlen]
        simp

/-- The sample backend cuts every response to the requested size. -/
theorem sampleBackend_honoursSize (found : Except String Bool)
    (created : Except String CreateIndexResult) (resp : Except String (SearchResult Nat))
    (written flushed : Option String) :
    (sampleBackend found created resp written flushed).HonoursSize := by
  intro s c req s1 res hits hsearch hhits
  simp only [sampleBackend, Prod.mk.injEq] at hsearch
  obtain ⟨-, hsearch⟩ := hsearch
  split at hsearch
  · split at hsearch
    · simp at hsearch
    · rename_i hc hsize
      simp only [Outcome.ret.injEq] at hsearch
      cases resp with
      | error e => simp [Except.map] at hsearch
      | ok r =>
        simp only [Except.map, Except.ok.injEq] at hsearch
        subst hsearch
        cases hr : r.Hits with
        | none => simp [hr] at hhits
        | some h =>
          simp only [hr, Option.map_some', Option.some.injEq] at hhits
          subst hhits
          simp only [List.length_take]
          have h1 : (min req.Size.toNat h.Hits.length : Int) ≤ (req.Size.toNat : Int) := by
            exact_mod_cast Nat.min_le_left _ _
          have h2 : (req.Size.toNat : Int) = req.Size := Int.toNat_of_nonneg (by omega)
          omega
  · simp at hsearch

/-- Claim C4: over every backend that never answers a search with more hits than the
requested `Size`, a `Find` that returns without error returns at most `20` documents,
and its total is the `TotalHits` of the response, not the number of documents; the
total can be larger than the number of documents returned (here `57` against `3`). -/
theorem Find_page_size :
    (∀ {σ κ Q D R E : Type} (be : Backend σ κ Q D R E), be.HonoursSize →
      ∀ (es : ElasticSearch κ) (w : World σ Q D) (query : Q) (table : String)
        (params : List Int) (objects : List D) (total : Int),
      (Find be es w query table params).2
        = .ret { objects := objects, total := total, err := none } →
      (objects.length : Int) ≤ 20 ∧
        ∃ s1 res hits,
          be.Search w.engine es.client (findRequest es query table params)
            = (s1, .ret (.ok res)) ∧
          res.Hits = some hits ∧ total = hits.TotalHits) ∧
    (∃ objects total,
      (searchBackend (.ok samplePage)).HonoursSize ∧
      (Find (searchBackend (.ok samplePage)) sampleHandle sampleWorld "title:lean" "book"
          [2]).2 = .ret { objects := objects, total := total, err := none } ∧
      (objects.length : Int) < total) := by
  constructor
  · intro σ κ Q D R E be hsize es w query table params objects total hfind
    obtain ⟨s1, res, hits, hs, hh, ht, hlen⟩ :=
      Find_success_inv be es w query table params objects total hfind
    refine ⟨?_, s1, res, hits, hs, hh, ht⟩
    have := hsize _ _ _ _ _ _ hs hh
    rw [hlen]
    simpa [findRequest, pageLimit] using this
  · exact ⟨[5, 2, 3], 57, sampleBackend_honoursSize _ _ _ _ _, by decide, by decide⟩

/-- The page bound at a concrete response: the sample page gives `3` documents, at
most `20`, with the total `57`. -/
theorem Find_page_size_witness :
    (([5, 2, 3] : List Nat).length : Int) ≤ 20 ∧
      ∃ s1 res hits,
        (searchBackend (.ok samplePage)).Search sampleWorld.engine sampleHandle.client
            (findRequest sampleHandle "title:lean" "book" [2]) = (s1, .ret (.ok res)) ∧
        res.Hits = some hits ∧ (57 : Int) = hits.TotalHits :=
  Find_page_size.1 (searchBackend (.ok samplePage)) (sampleBackend_honoursSize _ _ _ _ _)
    sampleHandle sampleWorld "title:lean" "book" [2] [5, 2, 3] 57 (by decide)

/-! ## `Insert` and `Delete` -/

/-- Claim C5: `Insert` first executes the index call for the document, `Delete` the
delete-by-query call for the query, each under the index of the handle and the given
document type, on the client of the handle. If that write fails, its error is returned,
no flush is made and the backend is left as the write left it. If it succeeds, a flush
of the index of the handle follows on the state the write left; a failing flush has its
error returned. The operation returns `nil` exactly when both calls succeed. -/
theorem Insert_Delete_two_step {σ κ Q D R E : Type} (be : Backend σ κ Q D R E)
    (es : ElasticSearch κ) (w : World σ Q D) (table : String) (model : D) (query : Q) :
    ((∀ (s1 : σ) (err : E),
        be.Index w.engine es.client { Index := es.index, Typ := table, BodyJson := model }
          = (s1, .ret (some err)) →
        (Insert be es w table model).2 = .ret (some err) ∧
          (Insert be es w table model).1.log
            = w.log ++ [Request.index { Index := es.index, Typ := table, BodyJson := model }] ∧
          (Insert be es w table model).1.engine = s1) ∧
      (∀ (s1 s2 : σ) (err : E),
        be.Index w.engine es.client { Index := es.index, Typ := table, BodyJson := model }
          = (s1, .ret none) →
        be.Flush s1 es.client es.index = (s2, .ret (some err)) →
        (Insert be es w table model).2 = .ret (some err) ∧
          (Insert be es w table model).1.log
            = w.log ++ [Request.index { Index := es.index, Typ := table, BodyJson := model },
                Request.flush es.index] ∧
          (Insert be es w table model).1.engine = s2) ∧
      (∀ (s1 s2 : σ),
        be.Index w.engine es.client { Index := es.index, Typ := table, BodyJson := model }
          = (s1, .ret none) →
        be.Flush s1 es.client es.index = (s2, .ret none) →
        (Insert be es w table model).2 = .ret none ∧
          (Insert be es w table model).1.log
            = w.log ++ [Request.index { Index := es.index, Typ := table, BodyJson := model },
                Request.flush es.index] ∧
          (Insert be es w table model).1.engine = s2) ∧
      ((Insert be es w table model).2 = .ret none ↔
        ∃ s1 s2,
          be.Index w.engine es.client { Index := es.index, Typ := table, BodyJson := model }
            = (s1, .ret none) ∧
          be.Flush s1 es.client es.index = (s2, .ret none))) ∧
    ((∀ (s1 : σ) (err : E),
        be.DeleteByQuery w.engine es.client { Index := es.index, Typ := table, Query := query }
          = (s1, .ret (some err)) →
        (Delete be es w table query).2 = .ret (some err) ∧
          (Delete be es w table query).1.log
            = w.log ++ [Request.deleteByQuery { Index := es.index, Typ := table, Query := query }] ∧
          (Delete be es w table query).1.engine = s1) ∧
      (∀ (s1 s2 : σ) (err : E),
        be.DeleteByQuery w.engine es.client { Index := es.index, Typ := table, Query := query }
          = (s1, .ret none) →
        be.Flush s1 es.client es.index = (s2, .ret (some err)) →
        (Delete be es w table query).2 = .ret (some err) ∧
          (Delete be es w table query).1.log
            = w.log ++ [Request.deleteByQuery { Index := es.index, Typ := table, Query := query },
                Request.flush es.index] ∧
          (Delete be es w table query).1.engine = s2) ∧
      (∀ (s1 s2 : σ),
        be.DeleteByQuery w.engine es.client { Index := es.index, Typ := table, Query := query }
          = (s1, .ret none) →
        be.Flush s1 es.client es.index = (s2, .ret none) →
        (Delete be es w table query).2 = .ret none ∧
          (Delete be es w table query).1.log
            = w.log ++ [Request.deleteByQuery { Index := es.index, Typ := table, Query := query },
                Request.flush es.index] ∧
          (Delete be es w table query).1.engine = s2) ∧
      ((Delete be es w table query).2 = .ret none ↔
        ∃ s1 s2,
          be.DeleteByQuery w.engine es.client { Index := es.index, Typ := table, Query := query }
            = (s1, .ret none) ∧
          be.Flush s1 es.client es.index = (s2, .ret none))) := by
  refine ⟨⟨?_, ?_, ?_, ?_⟩, ⟨?_, ?_, ?_, ?_⟩⟩
  · intro s1 err h1
    simp [Insert, insertRequest, h1, World.call]
  · intro s1 s2 err h1 h2
    simp [Insert, insertRequest, h1, h2, World.call]
  · intro s1 s2 h1 h2
    simp [Insert, insertRequest, h1, h2, World.call]
  · rcases h1 : be.Index w.engine es.client { Index := es.index, Typ := table, BodyJson := model }
      with ⟨s1, r1⟩
    rcases r1 with _ | (_ | err)
    · simp [Insert, insertRequest, h1]
    · rcases h2 : be.Flush s1 es.client es.index with ⟨s2, r2⟩
      rcases r2 with _ | (_ | err)
      · simp [Insert, insertRequest, h1, h2, World.call]
      · simp [Insert, insertRequest, h1, h2, World.call]
      · simp [Insert, insertRequest, h1, h2, World.call]
    · simp [Insert, insertRequest, h1]
  · intro s1 err h1
    simp [Delete, deleteRequest, h1, World.call]
  · intro s1 s2 err h1 h2
    simp [Delete, deleteRequest, h1, h2, World.call]
  · intro s1 s2 h1 h2
    simp [Delete, deleteRequest, h1, h2, World.call]
  · rcases h1 : be.DeleteByQuery w.engine es.client { Index := es.index, Typ := table, Query := query }
      with ⟨s1, r1⟩
    rcases r1 with _ | (_ | err)
    · simp [Delete, deleteRequest, h1]
    · rcases h2 : be.Flush s1 es.client es.index with ⟨s2, r2⟩
      rcases r2 with _ | (_ | err)
      · simp [Delete, deleteRequest, h1, h2, World.call]
      · simp [Delete, deleteRequest, h1, h2, World.call]
      · simp [Delete, deleteRequest, h1, h2, World.call]
    · simp [Delete, deleteRequest, h1]

/-- The two-step rule at concrete calls: an `Insert` whose index call fails makes no
flush; a `Delete` whose write succeeds and whose flush fails returns the flush error
after both calls. -/
theorem Insert_Delete_two_step_witness :
    ((Insert (sampleBackend (.ok true) (.ok { Acknowledged := true }) (.ok emptyPage)
          (some "mapper_parsing") none) sampleHandle sampleWorld "book" 11).2
        = .ret (some "mapper_parsing") ∧
      (Insert (sampleBackend (.ok true) (.ok { Acknowledged := true }) (.ok emptyPage)
          (some "mapper_parsing") none) sampleHandle sampleWorld "book" 11).1.log
        = [] ++ [.index { Index := "books", Typ := "book", BodyJson := 11 }] ∧
      (Insert (sampleBackend (.ok true) (.ok { Acknowledged := true }) (.ok emptyPage)
          (some "mapper_parsing") none) sampleHandle sampleWorld "book" 11).1.engine = 1) ∧
    ((Delete (sampleBackend (.ok true) (.ok { Acknowledged := true }) (.ok emptyPage)
          none (some "flush_failed")) sampleHandle sampleWorld "book" "title:lean").2
        = .ret (some "flush_failed") ∧
      (Delete (sampleBackend (.ok true) (.ok { Acknowledged := true }) (.ok emptyPage)
          none (some "flush_failed")) sampleHandle sampleWorld "book" "title:lean").1.log
        = [] ++ [.deleteByQuery { Index := "books", Typ := "book", Query := "title:lean" },
            .flush "books"] ∧
      (Delete (sampleBackend (.ok true) (.ok { Acknowledged := true }) (.ok emptyPage)
          none (some "flush_failed")) sampleHandle sampleWorld "book" "title:lean").1.engine
        = 2) :=
  ⟨(Insert_Delete_two_step (sampleBackend (.ok true) (.ok { Acknowledged := true })
      (.ok emptyPage) (some "mapper_parsing") none) sampleHandle sampleWorld "book" 11
      "title:lean").1.1 1 "mapper_parsing" rfl,
   (Insert_Delete_two_step (sampleBackend (.ok true) (.ok { Acknowledged := true })
      (.ok emptyPage) none (some "flush_failed")) sampleHandle sampleWorld "book" 11
      "title:lean").2.2.1 1 2 "flush_failed" rfl rfl⟩

/-! ## `Conn` -/

/-- Adding to a service appends the index requests of the calls, in call order, to
what was pending. -/
theorem addAllToBulk_requests {κ D : Type} (es : ElasticSearch κ) (bulk : BulkService κ D)
    (calls : List (String × D)) :
    (addAllToBulk es bulk calls).requests
      = bulk.requests ++ calls.map fun c => { Index := es.index, Typ := c.1, Doc := c.2 } := by
  induction calls generalizing bulk with
  | nil => simp [addAllToBulk]
  | cons c rest ih =>
    have h := ih (AddToBulk es bulk c.1 c.2)
    simp only [addAllToBulk, List.foldl_cons] at h ⊢
    rw [h]
    simp [AddToBulk, BulkService.Add]

/-- Adding to a service leaves the client it is bound to unchanged. -/
theorem addAllToBulk_client {κ D : Type} (es : ElasticSearch κ) (bulk : BulkService κ D)
    (calls : List (String × D)) :
    (addAllToBulk es bulk calls).client = bulk.client := by
  induction calls generalizing bulk with
  | nil => rfl
  | cons c rest ih =>
    have h := ih (AddToBulk es bulk c.1 c.2)
    simp only [addAllToBulk, List.foldl_cons] at h ⊢
    rw [h]
    rfl

/-- The world after `SendBulk`: one bulk call with the pending requests added to the
log, and the backend state left by one application of `Bulk` to the state before. -/
theorem SendBulk_world {σ κ Q D R E : Type} (be : Backend σ κ Q D R E)
    (es : ElasticSearch κ) (w : World σ Q D) (bulk : BulkService κ D) :
    (SendBulk be es w bulk).1.log = w.log ++ [.bulk bulk.requests] ∧
      (SendBulk be es w bulk).1.engine = (be.Bulk w.engine bulk.client bulk.requests).1 := by
  rcases hb : be.Bulk w.engine bulk.client bulk.requests with ⟨s1, r⟩
  cases r <;> simp [SendBulk, hb, World.call]

/-- Claim C8: the service returned by `NewBulk` has nothing pending; after `N` calls of
`AddToBulk` on it, it holds exactly `N` pending requests, the `k`-th being the index
request for the `k`-th document under the index of the handle and the type of the
`k`-th call; for `N ≥ 1` one `SendBulk` then hands the batch to the backend once: the
only call it adds to the log is a bulk call carrying all `N` requests in call order, and
the backend state after it is the state left by applying the backend bulk call once, to
the state before, with the client of the handle and exactly those requests. -/
theorem AddToBulk_accumulates {σ κ Q D R E : Type} (be : Backend σ κ Q D R E)
    (es : ElasticSearch κ) (w : World σ Q D) (calls : List (String × D)) :
    (NewBulk D es).requests = [] ∧
    (addAllToBulk es (NewBulk D es) calls).requests.length = calls.length ∧
    (∀ (k : Nat) (table : String) (model : D), calls[k]? = some (table, model) →
      (addAllToBulk es (NewBulk D es) calls).requests[k]?
        = some { Index := es.index, Typ := table, Doc := model }) ∧
    (calls ≠ [] →
      (SendBulk be es w (addAllToBulk es (NewBulk D es) calls)).1.log
          = w.log ++ [Request.bulk
              (calls.map fun c => { Index := es.index, Typ := c.1, Doc := c.2 })] ∧
        (SendBulk be es w (addAllToBulk es (NewBulk D es) calls)).1.engine
          = (be.Bulk w.engine es.client
              (calls.map fun c => { Index := es.index, Typ := c.1, Doc := c.2 })).1) := by
  have hreq : (addAllToBulk es (NewBulk D es) calls).requests
      = calls.map fun c => { Index := es.index, Typ := c.1, Doc := c.2 } := by
    rw [addAllToBulk_requests]
    rfl
  have hcl : (addAllToBulk es (NewBulk D es) calls).client = es.client := by
    rw [addAllToBulk_client]
    rfl
  refine ⟨rfl, ?_, ?_, ?_⟩
  · rw [hreq, List.length_map]
  · intro k table model hk
    rw [hreq, List.getElem?_map, hk]
    rfl
  · intro _
    have hw := SendBulk_world be es w (addAllToBulk es (NewBulk D es) calls)
    rw [hreq, hcl] at hw
    exact hw

/-- Bulk accumulation at a concrete run: two `AddToBulk` calls on a fresh batch, then one
`SendBulk`, put one bulk call with the two index requests in call order in the log and
apply the backend once. -/
theorem AddToBulk_accumulates_witness :
    (SendBulk (searchBackend (.ok emptyPage)) sampleHandle sampleWorld
        (addAllToBulk sampleHandle (NewBulk Nat sampleHandle)
          [("book", 11), ("author", 12)])).1.log
      = [] ++ [Request.bulk [{ Index := "books", Typ := "book", Doc := 11 },
          { Index := "books", Typ := "author", Doc := 12 }]] ∧
    (SendBulk (searchBackend (.ok emptyPage)) sampleHandle sampleWorld
        (addAllToBulk sampleHandle (NewBulk Nat sampleHandle)
          [("book", 11), ("author", 12)])).1.engine = 1 :=
  (AddToBulk_accumulates (searchBackend (.ok emptyPage)) sampleHandle sampleWorld
    [("book", 11), ("author", 12)]).2.2.2 (by simp)

end Elastic
